import Mathlib

/-!
Shallow embedding of the waybar-autohide decision engine (src/main.py).

The external hyprctl queries are modelled as snapshot inputs: the list of
monitors, the list of clients, the cursor position and the active workspace
ids are passed explicitly to the functions that, in the Python source, fetch
them by shelling out.  The module-level configuration globals BAR_HEIGHT and
HEIGHT_THRESHOLD become a `Config` record passed explicitly.
-/

/-- The two-state visibility enum (`WaybarState` in main.py). -/
inductive WaybarState where
  | VISIBLE
  | HIDDEN
deriving DecidableEq, Repr

/-- `Workspace` dataclass: id and name. -/
structure Workspace where
  id : Int
  name : String
deriving DecidableEq, Repr

/-- `HyprlandClient` dataclass: one compositor window. -/
structure HyprlandClient where
  address : String
  mapped : Bool
  hidden : Bool
  «at» : Int × Int
  size : Int × Int
  workspace : Workspace
  monitor : Int
  fullscreen : Int
deriving DecidableEq, Repr

/-- A monitor rectangle as consumed by `get_monitor_from_position`
(fields `id`, `x`, `y`, `width`, `height` of the hyprctl monitors JSON). -/
structure Monitor where
  id : Int
  x : Int
  y : Int
  width : Int
  height : Int
deriving DecidableEq, Repr

/-- The env-sourced module globals `BAR_HEIGHT` and `HEIGHT_THRESHOLD`. -/
structure Config where
  BAR_HEIGHT : Int
  HEIGHT_THRESHOLD : Int
deriving DecidableEq, Repr

/-- Python's `monitors or default` idiom on an optional list:
`None` and the empty list are falsy and yield the default. -/
def pyOrDefault (monitors : Option (List Int)) (default : List Int) : List Int :=
  match monitors with
  | none => default
  | some [] => default
  | some l => l

/-- `get_monitor_from_position`: first monitor whose rectangle contains the
point, boundary-inclusive on both edges (`pos < start` or `pos > end`
excludes, equality includes); `none` when no monitor matches. -/
def get_monitor_from_position (monitors : List Monitor) (pos_x pos_y : Int) : Option Int :=
  match monitors with
  | [] => none
  | monitor :: rest =>
    if pos_x < monitor.x ∨ pos_x > monitor.x + monitor.width then
      get_monitor_from_position rest pos_x pos_y
    else if pos_y < monitor.y ∨ pos_y > monitor.y + monitor.height then
      get_monitor_from_position rest pos_x pos_y
    else some monitor.id

/-- `get_clients`: the client list, filtered when a filter function is given. -/
def get_clients (clients : List HyprlandClient)
    (filter_func : Option (HyprlandClient → Bool)) : List HyprlandClient :=
  match filter_func with
  | none => clients
  | some f => clients.filter f

/-- The nested `overlaps_bar` predicate of `get_overlapping_clients`:
early-outs on unmapped, hidden, fullscreen, monitor allow-list and active
workspaces, then the vertical band test
`y < BAR_HEIGHT + HEIGHT_THRESHOLD and (y + h) > 0`. -/
def overlaps_bar (cfg : Config) (active_workspaces : List Int)
    (monitors : Option (List Int)) (c : HyprlandClient) : Bool :=
  if !c.mapped then false
  else if c.hidden then false
  else if c.fullscreen ≠ 0 then false
  else if !((pyOrDefault monitors [c.monitor]).contains c.monitor) then false
  else if !(active_workspaces.contains c.workspace.id) then false
  else
    let y := c.«at».2
    let h := c.size.2
    decide (y < cfg.BAR_HEIGHT + cfg.HEIGHT_THRESHOLD ∧ y + h > 0)

/-- `get_overlapping_clients`: the clients passing `overlaps_bar`. -/
def get_overlapping_clients (cfg : Config) (clients : List HyprlandClient)
    (active_workspaces : List Int) (monitors : Option (List Int)) : List HyprlandClient :=
  get_clients clients (some (overlaps_bar cfg active_workspaces monitors))

/-- `window_overlaps_bar`: `any(get_overlapping_clients(...))`. -/
def window_overlaps_bar (cfg : Config) (clients : List HyprlandClient)
    (active_workspaces : List Int) (monitors : Option (List Int)) : Bool :=
  !(get_overlapping_clients cfg clients active_workspaces monitors).isEmpty

/-- `cursor_aproaches_bar`: resolve the cursor's monitor, check the
allow-list, then compare `y <= offset` with
`offset = BAR_HEIGHT if current_state == VISIBLE else 0`. -/
def cursor_aproaches_bar (cfg : Config) (monitorList : List Monitor)
    (cursor : Int × Int) (monitors : Option (List Int))
    (current_state : WaybarState) : Bool :=
  let y := cursor.2
  match get_monitor_from_position monitorList cursor.1 cursor.2 with
  | none => false
  | some cursor_monitor =>
    if !((pyOrDefault monitors [cursor_monitor]).contains cursor_monitor) then false
    else
      let offset := if current_state = WaybarState.VISIBLE then cfg.BAR_HEIGHT else 0
      decide (y ≤ offset)

/-- One poll tick's worth of compositor state, as fetched by the hyprctl
queries inside `get_next_state`. -/
structure Snapshot where
  monitors : List Monitor
  clients : List HyprlandClient
  cursor : Int × Int
  activeWorkspaces : List Int

/-- `get_next_state`: cursor proximity wins, then window overlap hides,
otherwise visible. -/
def get_next_state (cfg : Config) (snap : Snapshot)
    (waybar_monitors : List Int) (current_state : WaybarState) : WaybarState :=
  if cursor_aproaches_bar cfg snap.monitors snap.cursor (some waybar_monitors) current_state then
    WaybarState.VISIBLE
  else if window_overlaps_bar cfg snap.clients snap.activeWorkspaces (some waybar_monitors) then
    WaybarState.HIDDEN
  else
    WaybarState.VISIBLE

/-- One iteration of the `while True` loop in `main`: compute the next
state, toggle (the returned flag) and commit the state only when it
changed. -/
def tick (cfg : Config) (snap : Snapshot) (waybar_monitors : List Int)
    (state : WaybarState) : WaybarState × Bool :=
  let next_state := get_next_state cfg snap waybar_monitors state
  if next_state ≠ state then (next_state, true)
  else (state, false)

/-- Several consecutive loop iterations over a list of snapshots,
returning the final state and the number of toggle invocations. -/
def run_loop (cfg : Config) (snaps : List Snapshot) (waybar_monitors : List Int)
    (state : WaybarState) : WaybarState × Nat :=
  match snaps with
  | [] => (state, 0)
  | snap :: rest =>
    let r := tick cfg snap waybar_monitors state
    let rr := run_loop cfg rest waybar_monitors r.1
    (rr.1, (if r.2 then 1 else 0) + rr.2)

/-! Concrete fixtures used by the witness theorems. -/

/-- Default configuration: bar height 50, threshold 20. -/
def cfgW : Config := ⟨50, 20⟩

/-- A single 1920x1080 monitor with id 0 at the origin. -/
def monW : Monitor := ⟨0, 0, 0, 1920, 1080⟩

/-- A one-monitor list. -/
def monListW : List Monitor := [monW]

/-- A mapped, non-hidden, non-fullscreen client on monitor 0,
workspace 1, at vertical position `y` with height `h`. -/
def clientW (y h : Int) : HyprlandClient :=
  ⟨"0x1", true, false, (0, y), (100, h), ⟨1, "1"⟩, 0, 0⟩

/-- A snapshot whose cursor sits at the top edge and whose only client
overlaps the bar band. -/
def snapBusyW : Snapshot := ⟨monListW, [clientW 10 30], (10, 0), [1]⟩

/-- A snapshot with no monitors, no clients and nothing active. -/
def snapEmptyW : Snapshot := ⟨[], [], (0, 0), []⟩

/-- C1: for every configuration, snapshot, allow-list and current state,
`get_next_state` follows the precedence order: a true cursor-proximity
predicate forces VISIBLE (even when the overlap predicate is also true);
otherwise a true window-overlap predicate gives HIDDEN; otherwise VISIBLE. -/
theorem get_next_state_precedence (cfg : Config) (snap : Snapshot)
    (mons : List Int) (st : WaybarState) :
    (cursor_aproaches_bar cfg snap.monitors snap.cursor (some mons) st = true →
      get_next_state cfg snap mons st = WaybarState.VISIBLE) ∧
    (cursor_aproaches_bar cfg snap.monitors snap.cursor (some mons) st = false →
      window_overlaps_bar cfg snap.clients snap.activeWorkspaces (some mons) = true →
      get_next_state cfg snap mons st = WaybarState.HIDDEN) ∧
    (cursor_aproaches_bar cfg snap.monitors snap.cursor (some mons) st = false →
      window_overlaps_bar cfg snap.clients snap.activeWorkspaces (some mons) = false →
      get_next_state cfg snap mons st = WaybarState.VISIBLE) := by
  refine ⟨?_, ?_, ?_⟩ <;> intros <;> simp [get_next_state, *]

/-- Witness for C1 at a snapshot where the cursor-proximity predicate and
the window-overlap predicate are both true: proximity wins, VISIBLE. -/
theorem get_next_state_precedence_witness :
    cursor_aproaches_bar cfgW snapBusyW.monitors snapBusyW.cursor (some []) WaybarState.HIDDEN = true ∧
    window_overlaps_bar cfgW snapBusyW.clients snapBusyW.activeWorkspaces (some []) = true ∧
    get_next_state cfgW snapBusyW [] WaybarState.HIDDEN = WaybarState.VISIBLE :=
  ⟨by decide, by decide,
    (get_next_state_precedence cfgW snapBusyW [] WaybarState.HIDDEN).1 (by decide)⟩

/-- C2: when the cursor's monitor is resolved and passes the allow-list,
`cursor_aproaches_bar` is exactly the test `y <= offset` with
`offset = BAR_HEIGHT` in state VISIBLE and `0` in state HIDDEN. -/
theorem cursor_aproaches_bar_iff_offset (cfg : Config) (monitorList : List Monitor)
    (x y : Int) (mons : Option (List Int)) (st : WaybarState) (mid : Int)
    (hres : get_monitor_from_position monitorList x y = some mid)
    (hallow : (pyOrDefault mons [mid]).contains mid = true) :
    cursor_aproaches_bar cfg monitorList (x, y) mons st =
      decide (y ≤ (if st = WaybarState.VISIBLE then cfg.BAR_HEIGHT else 0)) := by
  have hmem : mid ∈ pyOrDefault mons [mid] := by simpa using hallow
  simp [cursor_aproaches_bar, hres, hmem]

/-- Witness for C2 with barHeight 50: y=0 HIDDEN true, y=1 HIDDEN false,
y=50 VISIBLE true, y=51 VISIBLE false. -/
theorem cursor_aproaches_bar_iff_offset_witness :
    cursor_aproaches_bar cfgW monListW (5, 0) none WaybarState.HIDDEN = true ∧
    cursor_aproaches_bar cfgW monListW (5, 1) none WaybarState.HIDDEN = false ∧
    cursor_aproaches_bar cfgW monListW (5, 50) none WaybarState.VISIBLE = true ∧
    cursor_aproaches_bar cfgW monListW (5, 51) none WaybarState.VISIBLE = false := by
  refine ⟨?_, ?_, ?_, ?_⟩ <;>
    rw [cursor_aproaches_bar_iff_offset cfgW monListW _ _ none _ 0 (by decide) (by decide)] <;>
    decide

/-- C3: for a client passing the mapped/hidden/fullscreen/monitor/workspace
filters, `overlaps_bar` is exactly the vertical band test
`y < BAR_HEIGHT + HEIGHT_THRESHOLD and y + h > 0`; the client's horizontal
position and width do not appear in the test. -/
theorem overlaps_bar_geometry (cfg : Config) (aws : List Int)
    (mons : Option (List Int)) (c : HyprlandClient)
    (hm : c.mapped = true) (hh : c.hidden = false) (hf : c.fullscreen = 0)
    (hmon : (pyOrDefault mons [c.monitor]).contains c.monitor = true)
    (hws : aws.contains c.workspace.id = true) :
    overlaps_bar cfg aws mons c =
      decide (c.«at».2 < cfg.BAR_HEIGHT + cfg.HEIGHT_THRESHOLD ∧
        c.«at».2 + c.size.2 > 0) := by
  have hmon' : c.monitor ∈ pyOrDefault mons [c.monitor] := by simpa using hmon
  have hws' : c.workspace.id ∈ aws := by simpa using hws
  simp [overlaps_bar, hm, hh, hf, hmon', hws']

/-- Witness for C3 with barHeight 50 and threshold 20: a client at y=70
with h=10 does not overlap, one at y=69 does. -/
theorem overlaps_bar_geometry_witness :
    overlaps_bar cfgW [1] none (clientW 70 10) = false ∧
    overlaps_bar cfgW [1] none (clientW 69 10) = true := by
  constructor <;>
    rw [overlaps_bar_geometry cfgW [1] none _ (by decide) (by decide) (by decide)
      (by decide) (by decide)] <;>
    decide

/-- C4: an unmapped, hidden, or fullscreen client never satisfies
`overlaps_bar`, whatever its geometry, monitor or workspace. -/
theorem overlaps_bar_filtered_false (cfg : Config) (aws : List Int)
    (mons : Option (List Int)) (c : HyprlandClient)
    (h : c.mapped = false ∨ c.hidden = true ∨ c.fullscreen ≠ 0) :
    overlaps_bar cfg aws mons c = false := by
  unfold overlaps_bar
  rcases h with h | h | h <;> simp [h]

/-- Witness for C4: a geometrically overlapping client that is unmapped. -/
theorem overlaps_bar_filtered_false_witness :
    overlaps_bar cfgW [1] none ⟨"0x2", false, false, (0, 10), (100, 30), ⟨1, "1"⟩, 0, 0⟩ = false :=
  overlaps_bar_filtered_false cfgW [1] none _ (Or.inl (by decide))

/-- `pyOrDefault` on a non-empty list ignores the default. -/
theorem pyOrDefault_ne_nil (l d : List Int) (h : l ≠ []) :
    pyOrDefault (some l) d = l := by
  cases l with
  | nil => exact absurd rfl h
  | cons a t => rfl

/-- A client geometrically in the bar band but on monitor 2,
outside the allow-list `[0]` used in the C5 witness. -/
def clientM2W : HyprlandClient :=
  ⟨"0x3", true, false, (0, 10), (100, 30), ⟨1, "1"⟩, 2, 0⟩

/-- C5: a client whose monitor is missing from a non-empty allow-list never
overlaps; with the empty allow-list the monitor membership test of the code
always passes, so nobody is excluded by it; and a client whose workspace id
is not among the active workspace ids never overlaps. -/
theorem overlaps_bar_monitor_workspace_filters (cfg : Config) (aws : List Int)
    (c : HyprlandClient) :
    (∀ (l : List Int), l ≠ [] → l.contains c.monitor = false →
      overlaps_bar cfg aws (some l) c = false) ∧
    (∀ (x : Int), (pyOrDefault (some []) [x]).contains x = true) ∧
    (∀ (mons : Option (List Int)), aws.contains c.workspace.id = false →
      overlaps_bar cfg aws mons c = false) := by
  refine ⟨?_, ?_, ?_⟩
  · intro l hne hcon
    have hmem : c.monitor ∉ l := by simpa using hcon
    unfold overlaps_bar
    rw [pyOrDefault_ne_nil l [c.monitor] hne]
    simp [hmem]
  · intro x
    simp [pyOrDefault]
  · intro mons hws
    have hmem : c.workspace.id ∉ aws := by simpa using hws
    unfold overlaps_bar
    simp [hmem]

/-- Witness for C5: the in-band client on monitor 2 is rejected by the
allow-list `[0]`; the empty allow-list passes the membership test; a client
on an inactive workspace is rejected. -/
theorem overlaps_bar_monitor_workspace_filters_witness :
    overlaps_bar cfgW [1] (some [0]) clientM2W = false ∧
    (pyOrDefault (some []) [(5 : Int)]).contains 5 = true ∧
    overlaps_bar cfgW [2] none (clientW 10 30) = false := by
  refine ⟨?_, ?_, ?_⟩
  · exact (overlaps_bar_monitor_workspace_filters cfgW [1] clientM2W).1 [0]
      (by decide) (by decide)
  · exact (overlaps_bar_monitor_workspace_filters cfgW [1] clientM2W).2.1 5
  · exact (overlaps_bar_monitor_workspace_filters cfgW [2] (clientW 10 30)).2.2 none
      (by decide)

/-- C6: monitor resolution is a boundary-inclusive point-in-rectangle test
taking the first match in list order (a head monitor containing the point,
edges included, is returned whatever follows); when no monitor contains the
cursor, or the resolved monitor fails a non-empty allow-list,
`cursor_aproaches_bar` returns false rather than erroring. -/
theorem monitor_resolution_and_fallback (cfg : Config) :
    (∀ (m : Monitor) (rest : List Monitor) (x y : Int),
      m.x ≤ x → x ≤ m.x + m.width → m.y ≤ y → y ≤ m.y + m.height →
      get_monitor_from_position (m :: rest) x y = some m.id) ∧
    (∀ (monitorList : List Monitor) (x y : Int) (mons : Option (List Int))
      (st : WaybarState),
      get_monitor_from_position monitorList x y = none →
      cursor_aproaches_bar cfg monitorList (x, y) mons st = false) ∧
    (∀ (monitorList : List Monitor) (x y mid : Int) (l : List Int)
      (st : WaybarState),
      get_monitor_from_position monitorList x y = some mid →
      l ≠ [] → l.contains mid = false →
      cursor_aproaches_bar cfg monitorList (x, y) (some l) st = false) := by
  refine ⟨?_, ?_, ?_⟩
  · intro m rest x y h1 h2 h3 h4
    have hx : ¬(x < m.x ∨ x > m.x + m.width) := by omega
    have hy : ¬(y < m.y ∨ y > m.y + m.height) := by omega
    show (if x < m.x ∨ x > m.x + m.width then get_monitor_from_position rest x y
      else if y < m.y ∨ y > m.y + m.height then get_monitor_from_position rest x y
      else some m.id) = some m.id
    rw [if_neg hx, if_neg hy]
  · intro monitorList x y mons st h
    simp [cursor_aproaches_bar, h]
  · intro monitorList x y mid l st h hne hcon
    have hmem : mid ∉ l := by simpa using hcon
    simp [cursor_aproaches_bar, h, pyOrDefault_ne_nil l [mid] hne, hmem]

/-- Witness for C6: the point exactly on the far corner (1920, 1080) of the
1920x1080 monitor still resolves to it (boundary-inclusive); a cursor to the
left of every monitor yields proximity false; a resolved monitor outside the
allow-list `[7]` yields proximity false. -/
theorem monitor_resolution_and_fallback_witness :
    get_monitor_from_position monListW 1920 1080 = some 0 ∧
    cursor_aproaches_bar cfgW monListW (-5, 0) none WaybarState.HIDDEN = false ∧
    cursor_aproaches_bar cfgW monListW (5, 0) (some [7]) WaybarState.HIDDEN = false := by
  refine ⟨?_, ?_, ?_⟩
  · exact (monitor_resolution_and_fallback cfgW).1 monW [] 1920 1080
      (by decide) (by decide) (by decide) (by decide)
  · exact (monitor_resolution_and_fallback cfgW).2.1 monListW (-5) 0 none
      WaybarState.HIDDEN (by decide)
  · exact (monitor_resolution_and_fallback cfgW).2.2 monListW 5 0 0 [7]
      WaybarState.HIDDEN (by decide) (by decide) (by decide)

/-- C7: in every loop iteration the toggle fires iff the computed next state
differs from the current state; the state is left unchanged when no toggle
fires and becomes the computed state when one does; and over any sequence of
snapshots whose computed decision equals the current state, zero toggles
occur. -/
theorem driver_toggle_iff_change (cfg : Config) (snap : Snapshot)
    (mons : List Int) (st : WaybarState) :
    ((tick cfg snap mons st).2 = true ↔ get_next_state cfg snap mons st ≠ st) ∧
    ((tick cfg snap mons st).2 = false → (tick cfg snap mons st).1 = st) ∧
    ((tick cfg snap mons st).2 = true →
      (tick cfg snap mons st).1 = get_next_state cfg snap mons st) ∧
    (∀ (snaps : List Snapshot),
      (∀ s ∈ snaps, get_next_state cfg s mons st = st) →
      run_loop cfg snaps mons st = (st, 0)) := by
  refine ⟨?_, ?_, ?_, ?_⟩
  · by_cases h : get_next_state cfg snap mons st = st <;> simp [tick, h]
  · by_cases h : get_next_state cfg snap mons st = st <;> simp [tick, h]
  · by_cases h : get_next_state cfg snap mons st = st <;> simp [tick, h]
  · intro snaps hall
    induction snaps with
    | nil => rfl
    | cons s rest ih =>
      have hs : get_next_state cfg s mons st = st := hall s (List.mem_cons_self s rest)
      have hrest := ih (fun u hu => hall u (List.mem_cons_of_mem s hu))
      simp [run_loop, tick, hs, hrest]

/-- Witness for C7: three consecutive quiet ticks starting VISIBLE end
VISIBLE with zero toggle invocations. -/
theorem driver_toggle_iff_change_witness :
    run_loop cfgW [snapEmptyW, snapEmptyW, snapEmptyW] [] WaybarState.VISIBLE =
      (WaybarState.VISIBLE, 0) :=
  (driver_toggle_iff_change cfgW snapEmptyW [] WaybarState.VISIBLE).2.2.2
    [snapEmptyW, snapEmptyW, snapEmptyW] (by decide)

/-- C8: with the value of the cursor-proximity predicate fixed, the next
state computed by `get_next_state` does not depend on the current state: the
state enters only through the offset inside the proximity predicate (the
overlap predicate never reads it). -/
theorem get_next_state_state_independent (cfg : Config) (snap : Snapshot)
    (mons : List Int) (s s' : WaybarState)
    (h : cursor_aproaches_bar cfg snap.monitors snap.cursor (some mons) s =
      cursor_aproaches_bar cfg snap.monitors snap.cursor (some mons) s') :
    get_next_state cfg snap mons s = get_next_state cfg snap mons s' := by
  unfold get_next_state
  rw [h]

/-- Witness for C8 on a snapshot where the proximity predicate is false in
both states. -/
theorem get_next_state_state_independent_witness :
    get_next_state cfgW snapEmptyW [] WaybarState.VISIBLE =
      get_next_state cfgW snapEmptyW [] WaybarState.HIDDEN :=
  get_next_state_state_independent cfgW snapEmptyW [] WaybarState.VISIBLE
    WaybarState.HIDDEN (by decide)

/-- C9: passing `none` as the monitor allow-list is interchangeable with
passing the empty list in the overlap predicate, the any-overlap aggregate
and the cursor-proximity predicate. -/
theorem none_monitors_eq_empty (cfg : Config) (aws : List Int)
    (c : HyprlandClient) (clients : List HyprlandClient)
    (monitorList : List Monitor) (cursor : Int × Int) (st : WaybarState) :
    overlaps_bar cfg aws none c = overlaps_bar cfg aws (some []) c ∧
    window_overlaps_bar cfg clients aws none =
      window_overlaps_bar cfg clients aws (some []) ∧
    cursor_aproaches_bar cfg monitorList cursor none st =
      cursor_aproaches_bar cfg monitorList cursor (some []) st :=
  ⟨rfl, rfl, rfl⟩

/-- C10: with no clients in the snapshot the any-overlap aggregate is false
for every active-workspace list and every allow-list, so a tick whose
cursor-proximity predicate is also false computes VISIBLE. -/
theorem empty_snapshot_visible (cfg : Config) (snap : Snapshot)
    (mons : List Int) (st : WaybarState)
    (hempty : snap.clients = [])
    (hcur : cursor_aproaches_bar cfg snap.monitors snap.cursor (some mons) st = false) :
    (∀ (aws : List Int) (m : Option (List Int)),
      window_overlaps_bar cfg snap.clients aws m = false) ∧
    get_next_state cfg snap mons st = WaybarState.VISIBLE := by
  have hover : ∀ (aws : List Int) (m : Option (List Int)),
      window_overlaps_bar cfg snap.clients aws m = false := by
    intro aws m
    rw [hempty]
    rfl
  exact ⟨hover, by
    simp [get_next_state, hcur, hover snap.activeWorkspaces (some mons)]⟩

/-- Witness for C10 on the empty snapshot in state HIDDEN. -/
theorem empty_snapshot_visible_witness :
    window_overlaps_bar cfgW snapEmptyW.clients [] (some []) = false ∧
    get_next_state cfgW snapEmptyW [] WaybarState.HIDDEN = WaybarState.VISIBLE :=
  ⟨(empty_snapshot_visible cfgW snapEmptyW [] WaybarState.HIDDEN rfl (by decide)).1
      [] (some []),
   (empty_snapshot_visible cfgW snapEmptyW [] WaybarState.HIDDEN rfl (by decide)).2⟩
